import Mathlib

/-!
Verification development for the zcor workforce-management backend.

The definitions below are a shallow embedding of the repository's code:

* `utils/timeMath.js` → `validHHMM`, `hhmmVal`, `timeToMinutes`,
  `computeManualTotals`, `roundMinutes`.  JS numbers are modelled as `Int`
  (all arithmetic in these functions stays in the exact-integer range, and
  the single floating-point division in `roundMinutes` is modelled as exact
  rational division, which agrees with IEEE doubles on the 0‥1439 minute
  range used here).
* `services/timeEntryService.js` / `services/shiftService.js` → operations
  over an explicit database state (`List TimeEntry` / `List Shift`); a
  Mongo `findById` is `List.find?` on the id, a `save` rewrites the record
  with the same id, `updateMany` is a conditional map.  Thrown `HttpError`s
  are the `Err` side of `Except`; an error therefore never changes the
  database state, exactly as a throw before `save` leaves the store
  untouched.
-/

/-- Failure conditions of `utils/timeMath.js` (each `throw new Error(msg)`
in the source is one constructor; `message` recovers the JS message). -/
inductive TimeErr
  | invalidFormat
  | invalidRange
  | invalidBreak
  deriving DecidableEq, Repr

def TimeErr.message : TimeErr → String
  | .invalidFormat => "Invalid time format (expected HH:mm)"
  | .invalidRange => "endTime must be after startTime"
  | .invalidBreak => "breakMinutes cannot exceed total shift minutes"

/-- The regex `^([01]\d|2[0-3]):([0-5]\d)$` of `timeMath.js`. -/
def validHHMM (s : String) : Bool :=
  match s.toList with
  | [h1, h2, c, m1, m2] =>
    c == ':' &&
    (((h1 == '0' || h1 == '1') && (decide ('0' ≤ h2) && decide (h2 ≤ '9'))) ||
      (h1 == '2' && (decide ('0' ≤ h2) && decide (h2 ≤ '3')))) &&
    (decide ('0' ≤ m1) && decide (m1 ≤ '5')) &&
    (decide ('0' ≤ m2) && decide (m2 ≤ '9'))
  | _ => false

/-- Numeric value `h * 60 + m` of a (valid) `HH:mm` string. -/
def hhmmVal (s : String) : Nat :=
  match s.toList with
  | [h1, h2, _, m1, m2] =>
    (10 * (h1.toNat - 48) + (h2.toNat - 48)) * 60 +
      (10 * (m1.toNat - 48) + (m2.toNat - 48))
  | _ => 0

/-- `timeToMinutes` of `timeMath.js`.  The argument is `Option String`:
`none` models a non-string JS value (`null`/`undefined`), which fails the
`typeof hhmm !== "string"` guard with the same invalid-format error. -/
def timeToMinutes : Option String → Except TimeErr Nat
  | none => .error .invalidFormat
  | some s => if validHHMM s then .ok (hhmmVal s) else .error .invalidFormat

/-- `roundMinutes` of `timeMath.js`.  `minutes / inc` is JS floating-point
division, modelled as exact division in `ℚ`; `Math.floor` / `Math.ceil` /
`Math.round` are `Int.floor`, `Int.ceil` and Mathlib's `round` (both round
halves up). -/
def roundMinutes (minutes : Int) (increment : Int) (mode : String) : Int :=
  if increment ≤ 0 then minutes
  else if mode == "up" then ⌈((minutes : ℚ) / (increment : ℚ))⌉ * increment
  else if mode == "down" then ⌊((minutes : ℚ) / (increment : ℚ))⌋ * increment
  else round ((minutes : ℚ) / (increment : ℚ)) * increment

/-- Result record of `computeManualTotals`. -/
structure ManualTotals where
  totalMinutes : Int
  breakMinutes : Int
  paidMinutes : Int
  paidMinutesRounded : Int
  deriving DecidableEq, Repr

/-- `computeManualTotals` of `timeMath.js`. -/
def computeManualTotals (startTime endTime : Option String) (breakMinutes : Int)
    (roundingMinutes : Int) (roundingMode : String) : Except TimeErr ManualTotals :=
  match timeToMinutes startTime with
  | .error e => .error e
  | .ok start =>
    match timeToMinutes endTime with
    | .error e => .error e
    | .ok stop =>
      if (stop : Int) ≤ (start : Int) then .error .invalidRange
      else
        let totalMinutes : Int := (stop : Int) - (start : Int)
        let breakMins : Int := max 0 breakMinutes
        if totalMinutes < breakMins then .error .invalidBreak
        else
          .ok { totalMinutes := totalMinutes
                breakMinutes := breakMins
                paidMinutes := max 0 (totalMinutes - breakMins)
                paidMinutesRounded :=
                  roundMinutes (max 0 (totalMinutes - breakMins)) roundingMinutes roundingMode }

/-- Integer-safe floor of `m / inc` (the spec's "named rounding function"
for mode `down`). -/
def roundDivDown (m inc : Nat) : Nat := m / inc

/-- Integer-safe ceiling of `m / inc` (mode `up`). -/
def roundDivUp (m inc : Nat) : Nat := (m + inc - 1) / inc

/-- Integer-safe round-half-up of `m / inc` (mode `nearest`). -/
def roundDivNearest (m inc : Nat) : Nat := (2 * m + inc) / (2 * inc)

/-- Typed failures of the service layer (`utils/httpError.js` constructors).
`internal` is a plain `Error` escaping uncaught (HTTP 500), as happens when
`timeToMinutes` throws inside `ensureNoManualOverlap`. -/
inductive Err
  | badRequest (msg : String)
  | forbidden (msg : String)
  | notFound (msg : String)
  | conflict (msg : String)
  | internal (e : TimeErr)
  deriving DecidableEq, Repr

/-- JS truthiness of an optional string field: `null`/`undefined`/`""` are
falsy (`!e.startTime`). -/
def present : Option String → Bool
  | none => false
  | some s => s != ""

/-- The authenticated actor (id and role) resolved by the middleware. -/
structure Actor where
  id : Nat
  role : String
  deriving DecidableEq, Repr

/-- `isManagerLike` of both services. -/
def isManagerLike (role : String) : Bool := role == "owner" || role == "manager"

/-- `isEditableStatus` of `timeEntryService.js`. -/
def isEditableStatus (s : String) : Bool := s == "draft" || s == "rejected"

/-- JS `String.prototype.trim`, modelled structurally on the character
list: drop whitespace from both ends. -/
def strTrim (s : String) : String :=
  ⟨(((s.data.dropWhile Char.isWhitespace).reverse.dropWhile Char.isWhitespace).reverse)⟩

/-- The check `!reason || String(reason).trim().length < 2` guarding reject
operations (`none` models a missing/non-string reason). -/
def rejectReasonInvalid : Option String → Bool
  | none => true
  | some r => r == "" || decide ((strTrim r).length < 2)

/-- A stored `TimeEntry` document (model `TimeEntry.js`, restricted to the
fields the service reads or writes; ids are opaque `Nat`s, timestamps
`Nat`s). -/
structure TimeEntry where
  id : Nat
  business : Nat
  user : Nat
  entryType : String
  workDate : String
  startTime : Option String
  endTime : Option String
  breakMinutes : Int
  notes : Option String
  location : Option Nat
  status : String
  submittedAt : Option Nat
  approvedBy : Option Nat
  approvedAt : Option Nat
  rejectionReason : Option String
  createdBy : Nat
  updatedBy : Nat
  deriving DecidableEq, Repr

/-- `TimeEntry.findById`. -/
def findEntry (db : List TimeEntry) (entryId : Nat) : Option TimeEntry :=
  db.find? (fun e => e.id == entryId)

/-- `entry.save()`: rewrite the document with this id. -/
def saveEntry (db : List TimeEntry) (e : TimeEntry) : List TimeEntry :=
  db.map (fun x => if x.id == e.id then e else x)

/-- The Mongo query of `ensureNoManualOverlap`: same business + manual +
same user + same workDate + status ≠ void, optionally excluding one id. -/
def manualOverlapQuery (businessId userId : Nat) (workDate : String)
    (excludeEntryId : Option Nat) (e : TimeEntry) : Bool :=
  e.business == businessId && e.entryType == "manual" && e.user == userId &&
  e.workDate == workDate && e.status != "void" &&
  (match excludeEntryId with
   | some x => e.id != x
   | none => true)

/-- The `for`-loop of `ensureNoManualOverlap`: skip records with a falsy
start or end time, parse the rest, and throw `Conflict` on the first
half-open interval intersection.  A parse failure on a present time is an
uncaught `Error` (`Err.internal`), exactly as in the source. -/
def checkOverlapLoop (newStart newEnd : Nat) : List TimeEntry → Except Err Unit
  | [] => .ok ()
  | e :: rest =>
    if present e.startTime && present e.endTime then
      match timeToMinutes e.startTime with
      | .error er => .error (.internal er)
      | .ok s =>
        match timeToMinutes e.endTime with
        | .error er => .error (.internal er)
        | .ok t =>
          if s < newEnd ∧ t > newStart then
            .error (.conflict "Time entry overlaps an existing entry on the same date")
          else checkOverlapLoop newStart newEnd rest
    else checkOverlapLoop newStart newEnd rest

/-- `ensureNoManualOverlap` of `timeEntryService.js`. -/
def ensureNoManualOverlap (db : List TimeEntry) (businessId userId : Nat)
    (workDate : String) (startTime endTime : Option String)
    (excludeEntryId : Option Nat) : Except Err Unit :=
  match timeToMinutes startTime with
  | .error er => .error (.internal er)
  | .ok newStart =>
    match timeToMinutes endTime with
    | .error er => .error (.internal er)
    | .ok newEnd =>
      if newEnd ≤ newStart then .error (.badRequest "endTime must be after startTime")
      else
        checkOverlapLoop newStart newEnd
          (db.filter (manualOverlapQuery businessId userId workDate excludeEntryId))

/-- A record whose present, parsed interval intersects the half-open
candidate interval `[newStart, newEnd)`. -/
def entryOverlaps (newStart newEnd : Nat) (e : TimeEntry) : Prop :=
  present e.startTime = true ∧ present e.endTime = true ∧
  ∃ s t, timeToMinutes e.startTime = .ok s ∧ timeToMinutes e.endTime = .ok t ∧
    s < newEnd ∧ t > newStart

/-- The claim's conflict condition for one existing record: same business,
user and workDate, status ≠ void, id different from the excluded one, both
times present, and intervals intersecting in minutes-since-midnight. -/
def conflictsWith (businessId userId : Nat) (workDate : String)
    (excludeEntryId : Option Nat) (newStart newEnd : Nat) (e : TimeEntry) : Prop :=
  e.business = businessId ∧ e.user = userId ∧ e.workDate = workDate ∧
  e.status ≠ "void" ∧ (∀ x, excludeEntryId = some x → e.id ≠ x) ∧
  entryOverlaps newStart newEnd e

/-- `updateManualTimeEntry`.  `Option`-wrapped arguments model absent
(`undefined`) request fields; the double options model the source's
`!== undefined` tests on `notes`/`locationId`. -/
def updateManualTimeEntry (db : List TimeEntry) (businessId : Nat) (actor : Actor)
    (entryId : Nat) (workDate startTime endTime : Option String)
    (breakMinutes : Option Int) (notes : Option (Option String))
    (locationId : Option (Option Nat)) : Except Err (TimeEntry × List TimeEntry) :=
  match findEntry db entryId with
  | none => .error (.notFound "Time entry not found")
  | some entry =>
    if entry.business ≠ businessId then .error (.forbidden "Cross-tenant access is not allowed")
    else if entry.entryType ≠ "manual" then .error (.notFound "Manual time entry not found")
    else if ¬ isManagerLike actor.role ∧ entry.user ≠ actor.id then
      .error (.forbidden "Employees can only edit their own time entry")
    else if ¬ isEditableStatus entry.status then
      .error (.conflict "Only draft or rejected entries can be edited")
    else
      match computeManualTotals
          (match startTime with | some s => some s | none => entry.startTime)
          (match endTime with | some s => some s | none => entry.endTime)
          (breakMinutes.getD entry.breakMinutes) 0 "nearest" with
      | .error e => .error (.badRequest e.message)
      | .ok _ =>
        match ensureNoManualOverlap db businessId entry.user
            (workDate.getD entry.workDate)
            (match startTime with | some s => some s | none => entry.startTime)
            (match endTime with | some s => some s | none => entry.endTime)
            (some entry.id) with
        | .error e => .error e
        | .ok _ =>
          let e2 : TimeEntry :=
            { entry with
              workDate := workDate.getD entry.workDate
              startTime := match startTime with | some s => some s | none => entry.startTime
              endTime := match endTime with | some s => some s | none => entry.endTime
              breakMinutes := breakMinutes.getD entry.breakMinutes
              notes := match notes with
                | some (some s) => if s == "" then none else some s
                | some none => none
                | none => entry.notes
              location := match locationId with
                | some v => v
                | none => entry.location
              updatedBy := actor.id }
          .ok (e2, saveEntry db e2)

/-- `submitTimeEntry`. -/
def submitTimeEntry (db : List TimeEntry) (businessId : Nat) (actor : Actor)
    (entryId : Nat) (now : Nat) : Except Err (TimeEntry × List TimeEntry) :=
  match findEntry db entryId with
  | none => .error (.notFound "Time entry not found")
  | some entry =>
    if entry.business ≠ businessId then .error (.forbidden "Cross-tenant access is not allowed")
    else if entry.entryType ≠ "manual" then .error (.notFound "Manual time entry not found")
    else if ¬ isManagerLike actor.role ∧ entry.user ≠ actor.id then
      .error (.forbidden "Employees can only submit their own time entry")
    else if ¬ isEditableStatus entry.status then
      .error (.conflict "Only draft or rejected entries can be submitted")
    else
      match computeManualTotals entry.startTime entry.endTime entry.breakMinutes 0 "nearest" with
      | .error e => .error (.badRequest e.message)
      | .ok _ =>
        let e2 : TimeEntry :=
          { entry with status := "submitted", submittedAt := some now, updatedBy := actor.id }
        .ok (e2, saveEntry db e2)

/-- `approveTimeEntry`. -/
def approveTimeEntry (db : List TimeEntry) (businessId : Nat) (actor : Actor)
    (entryId : Nat) (now : Nat) : Except Err (TimeEntry × List TimeEntry) :=
  if ¬ isManagerLike actor.role then
    .error (.forbidden "Only managers/owners can approve time entries")
  else
    match findEntry db entryId with
    | none => .error (.notFound "Time entry not found")
    | some entry =>
      if entry.business ≠ businessId then .error (.forbidden "Cross-tenant access is not allowed")
      else if entry.entryType ≠ "manual" then .error (.notFound "Manual time entry not found")
      else if entry.status ≠ "submitted" then
        .error (.conflict "Only submitted time entries can be approved")
      else
        let e2 : TimeEntry :=
          { entry with status := "approved", approvedBy := some actor.id,
                       approvedAt := some now, updatedBy := actor.id }
        .ok (e2, saveEntry db e2)

/-- `rejectTimeEntry`. -/
def rejectTimeEntry (db : List TimeEntry) (businessId : Nat) (actor : Actor)
    (entryId : Nat) (reason : Option String) : Except Err (TimeEntry × List TimeEntry) :=
  if ¬ isManagerLike actor.role then
    .error (.forbidden "Only managers/owners can reject time entries")
  else if rejectReasonInvalid reason then .error (.badRequest "Rejection reason is required")
  else
    match findEntry db entryId with
    | none => .error (.notFound "Time entry not found")
    | some entry =>
      if entry.business ≠ businessId then .error (.forbidden "Cross-tenant access is not allowed")
      else if entry.entryType ≠ "manual" then .error (.notFound "Manual time entry not found")
      else if entry.status ≠ "submitted" then
        .error (.conflict "Only submitted time entries can be rejected")
      else
        let e2 : TimeEntry :=
          { entry with status := "rejected",
                       rejectionReason := some (strTrim (reason.getD "")),
                       updatedBy := actor.id }
        .ok (e2, saveEntry db e2)

/-- `voidTimeEntry`. -/
def voidTimeEntry (db : List TimeEntry) (businessId : Nat) (actor : Actor)
    (entryId : Nat) : Except Err (TimeEntry × List TimeEntry) :=
  match findEntry db entryId with
  | none => .error (.notFound "Time entry not found")
  | some entry =>
    if entry.business ≠ businessId then .error (.forbidden "Cross-tenant access is not allowed")
    else if entry.entryType ≠ "manual" then .error (.notFound "Manual time entry not found")
    else if ¬ isManagerLike actor.role ∧ entry.user ≠ actor.id then
      .error (.forbidden "Employees can only void their own time entry")
    else if ¬ isManagerLike actor.role ∧ ¬ isEditableStatus entry.status then
      .error (.conflict "You can only void draft or rejected entries")
    else
      let e2 : TimeEntry := { entry with status := "void", updatedBy := actor.id }
      .ok (e2, saveEntry db e2)

/-- `getTimeEntry` (read-only; the per-tenant rounding setting is a
parameter, the computed totals are returned alongside the record — a
failed totals computation is caught and reported in-band). -/
def getTimeEntry (db : List TimeEntry) (businessId : Nat) (actor : Actor)
    (entryId : Nat) (roundingMinutes : Int) :
    Except Err (TimeEntry × Except TimeErr ManualTotals) :=
  match findEntry db entryId with
  | none => .error (.notFound "Time entry not found")
  | some entry =>
    if entry.business ≠ businessId then .error (.forbidden "Cross-tenant access is not allowed")
    else if entry.entryType ≠ "manual" then .error (.notFound "Manual time entry not found")
    else if ¬ isManagerLike actor.role ∧ entry.user ≠ actor.id then
      .error (.forbidden "Employees can only view their own time entry")
    else
      .ok (entry, computeManualTotals entry.startTime entry.endTime entry.breakMinutes
        roundingMinutes "nearest")

/-- Counts and records returned by the bulk operations. -/
structure BulkResult where
  matched : Nat
  modified : Nat
  updated : List TimeEntry
  deriving DecidableEq, Repr

/-- The `updateMany` filter of both bulk operations:
`{_id ∈ entryIds, business, entryType: manual, status: submitted}`. -/
def bulkMatch (businessId : Nat) (ids : List Nat) (e : TimeEntry) : Bool :=
  decide (e.id ∈ ids) && decide (e.business = businessId) &&
  decide (e.entryType = "manual") && decide (e.status = "submitted")

/-- `bulkApproveTimeEntries`.  `entryIds = none` models a missing or
non-array body field.  `modifiedCount` equals `matchedCount` because the
`$set` always changes `status` ("submitted" → "approved") on every matched
document. -/
def bulkApproveTimeEntries (db : List TimeEntry) (businessId : Nat) (actor : Actor)
    (entryIds : Option (List Nat)) (now : Nat) : Except Err (BulkResult × List TimeEntry) :=
  if ¬ isManagerLike actor.role then
    .error (.forbidden "Only managers/owners can approve time entries")
  else
    match entryIds with
    | none => .error (.badRequest "entryIds must be a non-empty array")
    | some ids =>
      if ids.isEmpty then .error (.badRequest "entryIds must be a non-empty array")
      else
        let db2 := db.map (fun e =>
          if bulkMatch businessId ids e then
            { e with status := "approved", approvedBy := some actor.id,
                     approvedAt := some now, updatedBy := actor.id }
          else e)
        .ok ({ matched := db.countP (fun e => bulkMatch businessId ids e)
               modified := db.countP (fun e => bulkMatch businessId ids e)
               updated := db2.filter (fun e =>
                 ids.contains e.id && e.business == businessId && e.entryType == "manual") },
             db2)

/-- `bulkRejectTimeEntries`. -/
def bulkRejectTimeEntries (db : List TimeEntry) (businessId : Nat) (actor : Actor)
    (entryIds : Option (List Nat)) (reason : Option String) :
    Except Err (BulkResult × List TimeEntry) :=
  if ¬ isManagerLike actor.role then
    .error (.forbidden "Only managers/owners can reject time entries")
  else
    match entryIds with
    | none => .error (.badRequest "entryIds must be a non-empty array")
    | some ids =>
      if ids.isEmpty then .error (.badRequest "entryIds must be a non-empty array")
      else if rejectReasonInvalid reason then .error (.badRequest "Rejection reason is required")
      else
        let db2 := db.map (fun e =>
          if bulkMatch businessId ids e then
            { e with status := "rejected",
                     rejectionReason := some (strTrim (reason.getD "")),
                     updatedBy := actor.id }
          else e)
        .ok ({ matched := db.countP (fun e => bulkMatch businessId ids e)
               modified := db.countP (fun e => bulkMatch businessId ids e)
               updated := db2.filter (fun e =>
                 ids.contains e.id && e.business == businessId && e.entryType == "manual") },
             db2)

/-- A stored `Shift` document (`startAt`/`endAt` are already-parsed
absolute timestamps; the service's `parseDate` validity check happens on
the string form and is upstream of this model). -/
structure Shift where
  id : Nat
  business : Nat
  user : Option Nat
  location : Option Nat
  startAt : Int
  endAt : Int
  roleTag : Option String
  notes : Option String
  status : String
  publishedAt : Option Nat
  createdBy : Nat
  updatedBy : Nat
  deriving DecidableEq, Repr

/-- `Shift.findById`. -/
def findShift (db : List Shift) (shiftId : Nat) : Option Shift :=
  db.find? (fun s => s.id == shiftId)

/-- `shift.save()`. -/
def saveShift (db : List Shift) (s : Shift) : List Shift :=
  db.map (fun x => if x.id == s.id then s else x)

/-- `ensureNoShiftOverlap` of `shiftService.js` (no user ⇒ no check). -/
def ensureNoShiftOverlap (db : List Shift) (businessId : Nat) (userId : Option Nat)
    (startAt endAt : Int) (excludeShiftId : Option Nat) : Except Err Unit :=
  match userId with
  | none => .ok ()
  | some uid =>
    if db.any (fun s =>
        s.business == businessId && s.user == some uid && s.status != "canceled" &&
        (match excludeShiftId with
         | some x => s.id != x
         | none => true) &&
        decide (s.startAt < endAt) && decide (s.endAt > startAt)) then
      .error (.conflict "Shift overlaps an existing shift for this user")
    else .ok ()

/-- `updateShift`. -/
def updateShift (db : List Shift) (businessId : Nat) (actor : Actor) (shiftId : Nat)
    (userId : Option (Option Nat)) (locationId : Option (Option Nat))
    (startAt endAt : Option Int) (roleTag : Option (Option String))
    (notes : Option (Option String)) : Except Err (Shift × List Shift) :=
  if ¬ isManagerLike actor.role then
    .error (.forbidden "Only managers/owners can update shifts")
  else
    match findShift db shiftId with
    | none => .error (.notFound "Shift not found")
    | some shift =>
      if shift.business ≠ businessId then .error (.forbidden "Cross-tenant access is not allowed")
      else if shift.status == "canceled" then .error (.conflict "Canceled shifts cannot be edited")
      else if endAt.getD shift.endAt ≤ startAt.getD shift.startAt then
        .error (.badRequest "endAt must be after startAt")
      else
        match ensureNoShiftOverlap db businessId
            (match userId with | some v => v | none => shift.user)
            (startAt.getD shift.startAt) (endAt.getD shift.endAt) (some shift.id) with
        | .error e => .error e
        | .ok _ =>
          let s2 : Shift :=
            { shift with
              startAt := startAt.getD shift.startAt
              endAt := endAt.getD shift.endAt
              user := match userId with | some v => v | none => shift.user
              location := match locationId with | some v => v | none => shift.location
              roleTag := match roleTag with | some v => v | none => shift.roleTag
              notes := match notes with | some v => v | none => shift.notes
              updatedBy := actor.id }
          .ok (s2, saveShift db s2)

/-- `publishShift`. -/
def publishShift (db : List Shift) (businessId : Nat) (actor : Actor) (shiftId : Nat)
    (now : Nat) : Except Err (Shift × List Shift) :=
  if ¬ isManagerLike actor.role then
    .error (.forbidden "Only managers/owners can publish shifts")
  else
    match findShift db shiftId with
    | none => .error (.notFound "Shift not found")
    | some shift =>
      if shift.business ≠ businessId then .error (.forbidden "Cross-tenant access is not allowed")
      else if shift.status == "canceled" then
        .error (.conflict "Canceled shifts cannot be published")
      else
        let s2 : Shift :=
          { shift with status := "published", publishedAt := some now, updatedBy := actor.id }
        .ok (s2, saveShift db s2)

/-- `cancelShift` (early `return shift` without saving when already
canceled). -/
def cancelShift (db : List Shift) (businessId : Nat) (actor : Actor) (shiftId : Nat) :
    Except Err (Shift × List Shift) :=
  if ¬ isManagerLike actor.role then
    .error (.forbidden "Only managers/owners can cancel shifts")
  else
    match findShift db shiftId with
    | none => .error (.notFound "Shift not found")
    | some shift =>
      if shift.business ≠ businessId then .error (.forbidden "Cross-tenant access is not allowed")
      else if shift.status == "canceled" then .ok (shift, db)
      else
        let s2 : Shift := { shift with status := "canceled", updatedBy := actor.id }
        .ok (s2, saveShift db s2)

/-- `assignShift`. -/
def assignShift (db : List Shift) (businessId : Nat) (actor : Actor) (shiftId : Nat)
    (userId : Option Nat) : Except Err (Shift × List Shift) :=
  if ¬ isManagerLike actor.role then
    .error (.forbidden "Only managers/owners can assign shifts")
  else
    match userId with
    | none => .error (.badRequest "userId is required")
    | some uid =>
      match findShift db shiftId with
      | none => .error (.notFound "Shift not found")
      | some shift =>
        if shift.business ≠ businessId then .error (.forbidden "Cross-tenant access is not allowed")
        else if shift.status == "canceled" then
          .error (.conflict "Canceled shifts cannot be assigned")
        else
          match ensureNoShiftOverlap db businessId (some uid) shift.startAt shift.endAt
              (some shift.id) with
          | .error e => .error e
          | .ok _ =>
            let s2 : Shift := { shift with user := some uid, updatedBy := actor.id }
            .ok (s2, saveShift db s2)

/-- `unassignShift`. -/
def unassignShift (db : List Shift) (businessId : Nat) (actor : Actor) (shiftId : Nat) :
    Except Err (Shift × List Shift) :=
  if ¬ isManagerLike actor.role then
    .error (.forbidden "Only managers/owners can unassign shifts")
  else
    match findShift db shiftId with
    | none => .error (.notFound "Shift not found")
    | some shift =>
      if shift.business ≠ businessId then .error (.forbidden "Cross-tenant access is not allowed")
      else if shift.status == "canceled" then
        .error (.conflict "Canceled shifts cannot be unassigned")
      else
        let s2 : Shift := { shift with user := none, updatedBy := actor.id }
        .ok (s2, saveShift db s2)

/-- `getShift` (read-only; employees see their own shifts or open
published ones). -/
def getShift (db : List Shift) (businessId : Nat) (actor : Actor) (shiftId : Nat) :
    Except Err Shift :=
  match findShift db shiftId with
  | none => .error (.notFound "Shift not found")
  | some shift =>
    if shift.business ≠ businessId then .error (.forbidden "Cross-tenant access is not allowed")
    else if ¬ isManagerLike actor.role ∧ ¬ shift.user = some actor.id ∧
        ¬ (shift.user = none ∧ shift.status = "published") then
      .error (.forbidden "You can only view your own shifts")
    else .ok shift

/-- The duration-determining and ownership fields of a time entry, which
the pure status transitions must not touch. -/
def sameCore (x y : TimeEntry) : Prop :=
  x.workDate = y.workDate ∧ x.startTime = y.startTime ∧ x.endTime = y.endTime ∧
  x.breakMinutes = y.breakMinutes ∧ x.user = y.user ∧ x.business = y.business ∧
  x.entryType = y.entryType ∧ x.notes = y.notes ∧ x.location = y.location ∧
  x.createdBy = y.createdBy

/-- Test fixture: a manual time entry 09:00–17:00 on 2024-01-05. -/
def mkEntry (id business user : Nat) (status : String) : TimeEntry :=
  { id := id, business := business, user := user, entryType := "manual",
    workDate := "2024-01-05", startTime := some "09:00", endTime := some "17:00",
    breakMinutes := 30, notes := none, location := none, status := status,
    submittedAt := none, approvedBy := none, approvedAt := none,
    rejectionReason := none, createdBy := user, updatedBy := user }

/-- Test fixture: a shift. -/
def mkShift (id business : Nat) (status : String) : Shift :=
  { id := id, business := business, user := none, location := none,
    startAt := 1000, endAt := 2000, roleTag := none, notes := none,
    status := status, publishedAt := none, createdBy := 10, updatedBy := 10 }

lemma int_floor_natCast_div (m inc : ℕ) :
    ⌊((m : ℚ) / (inc : ℚ))⌋ = ((m / inc : ℕ) : ℤ) := by
  have h0 : (0 : ℚ) ≤ (m : ℚ) / (inc : ℚ) := by positivity
  have h1 := Int.floor_toNat ((m : ℚ) / (inc : ℚ))
  have h2 := Nat.floor_div_eq_div (α := ℚ) m inc
  have h3 := Int.floor_nonneg.mpr h0
  omega

lemma int_ceil_natCast_div (m inc : ℕ) (h : 0 < inc) :
    ⌈((m : ℚ) / (inc : ℚ))⌉ = ((roundDivUp m inc : ℕ) : ℤ) := by
  have hq : (0 : ℚ) < (inc : ℚ) := by exact_mod_cast h
  simp only [roundDivUp]
  rw [Int.ceil_eq_iff]
  have hd := Nat.div_add_mod (m + inc - 1) inc
  have hm := Nat.mod_lt (m + inc - 1) h
  set c := (m + inc - 1) / inc with hc
  set r := (m + inc - 1) % inc with hr
  have key : inc * c + r + 1 = m + inc := by omega
  have keyQ : (inc : ℚ) * c + r + 1 = m + inc := by exact_mod_cast key
  have hrQ : (0 : ℚ) ≤ (r : ℚ) := by positivity
  have hr1Q : (r : ℚ) + 1 ≤ (inc : ℚ) := by exact_mod_cast Nat.succ_le_of_lt hm
  push_cast
  constructor
  · rw [lt_div_iff₀ hq]
    nlinarith
  · rw [div_le_iff₀ hq]
    nlinarith

lemma int_round_natCast_div (m inc : ℕ) (h : 0 < inc) :
    round ((m : ℚ) / (inc : ℚ)) = ((roundDivNearest m inc : ℕ) : ℤ) := by
  have hq : (inc : ℚ) ≠ 0 := Nat.cast_ne_zero.mpr h.ne'
  rw [round_eq]
  have hx : (m : ℚ) / (inc : ℚ) + 1 / 2 = ((2 * m + inc : ℕ) : ℚ) / ((2 * inc : ℕ) : ℚ) := by
    push_cast
    field_simp
    ring
  rw [hx, int_floor_natCast_div]
  simp [roundDivNearest]

/-- C8: `roundMinutes` is the identity at increment 0 for every mode, and
for every increment `0 < inc ≤ 60` it equals the increment times the named
integer-safe rounding function (floor for `down`, ceiling for `up`,
round-half-up for `nearest`) applied to `m / inc`, so its result is always
a multiple of the increment. -/
theorem roundMinutes_rounds_to_multiples (m inc : ℕ) (mode : String)
    (h1 : 0 < inc) (h2 : inc ≤ 60) :
    roundMinutes (m : ℤ) 0 mode = (m : ℤ) ∧
    roundMinutes (m : ℤ) (inc : ℤ) "down" = ((inc * roundDivDown m inc : ℕ) : ℤ) ∧
    roundMinutes (m : ℤ) (inc : ℤ) "up" = ((inc * roundDivUp m inc : ℕ) : ℤ) ∧
    roundMinutes (m : ℤ) (inc : ℤ) "nearest" = ((inc * roundDivNearest m inc : ℕ) : ℤ) ∧
    (inc : ℤ) ∣ roundMinutes (m : ℤ) (inc : ℤ) mode := by
  have hincZ : ¬ ((inc : ℤ) ≤ 0) := by
    simp only [not_le]
    exact_mod_cast h1
  have hcast : (((m : ℤ) : ℚ)) / (((inc : ℤ) : ℚ)) = (m : ℚ) / (inc : ℚ) := by
    push_cast
    ring
  refine ⟨?_, ?_, ?_, ?_, ?_⟩
  · simp [roundMinutes]
  · unfold roundMinutes
    rw [if_neg hincZ, if_neg (by decide), if_pos (by decide), hcast, int_floor_natCast_div]
    push_cast [roundDivDown]
    ring
  · unfold roundMinutes
    rw [if_neg hincZ, if_pos (by decide), hcast, int_ceil_natCast_div m inc h1]
    push_cast
    ring
  · unfold roundMinutes
    rw [if_neg hincZ, if_neg (by decide), if_neg (by decide), hcast,
      int_round_natCast_div m inc h1]
    push_cast
    ring
  · unfold roundMinutes
    rw [if_neg hincZ]
    split
    · exact dvd_mul_left _ _
    · split
      · exact dvd_mul_left _ _
      · exact dvd_mul_left _ _

theorem roundMinutes_rounds_to_multiples_witness :
    0 < 15 ∧ 15 ≤ 60 ∧
    (roundMinutes ((125 : ℕ) : ℤ) 0 "nearest" = ((125 : ℕ) : ℤ) ∧
     roundMinutes ((125 : ℕ) : ℤ) ((15 : ℕ) : ℤ) "down" = ((15 * roundDivDown 125 15 : ℕ) : ℤ) ∧
     roundMinutes ((125 : ℕ) : ℤ) ((15 : ℕ) : ℤ) "up" = ((15 * roundDivUp 125 15 : ℕ) : ℤ) ∧
     roundMinutes ((125 : ℕ) : ℤ) ((15 : ℕ) : ℤ) "nearest" =
       ((15 * roundDivNearest 125 15 : ℕ) : ℤ) ∧
     ((15 : ℕ) : ℤ) ∣ roundMinutes ((125 : ℕ) : ℤ) ((15 : ℕ) : ℤ) "nearest") :=
  ⟨by decide, by decide, roundMinutes_rounds_to_multiples 125 15 "nearest" (by decide) (by decide)⟩

/-- C2: for strict zero-padded `HH:mm` inputs, `computeManualTotals` fails
with the invalid-range condition when end ≤ start, fails with the
invalid-break condition when breakMinutes exceeds the total, and otherwise
returns `totalMinutes = end − start` and
`paidMinutes = totalMinutes − breakMinutes ≥ 0`; a non-`HH:mm` start or
end (including the spec's examples "24:00", "9:00", "12:60", "" and null)
makes `timeToMinutes` — and hence `computeManualTotals` — fail with the
invalid-format condition. -/
theorem computeManualTotals_spec
    (st1 et1 : String) (h1s : validHHMM st1 = true) (h1e : validHHMM et1 = true)
    (b1 : Int) (h1 : hhmmVal et1 ≤ hhmmVal st1)
    (st2 et2 : String) (h2s : validHHMM st2 = true) (h2e : validHHMM et2 = true)
    (b2 : Nat) (h2 : hhmmVal st2 < hhmmVal et2) (hb2 : hhmmVal et2 - hhmmVal st2 < b2)
    (st3 et3 : String) (h3s : validHHMM st3 = true) (h3e : validHHMM et3 = true)
    (b3 : Nat) (h3 : hhmmVal st3 < hhmmVal et3) (hb3 : b3 ≤ hhmmVal et3 - hhmmVal st3)
    (bad : Option String) (hbad : ∀ s, bad = some s → validHHMM s = false) :
    computeManualTotals (some st1) (some et1) b1 0 "nearest" = .error .invalidRange ∧
    computeManualTotals (some st2) (some et2) (b2 : Int) 0 "nearest" = .error .invalidBreak ∧
    (∃ r, computeManualTotals (some st3) (some et3) (b3 : Int) 0 "nearest" = .ok r ∧
      r.totalMinutes = (hhmmVal et3 : Int) - (hhmmVal st3 : Int) ∧
      r.paidMinutes = r.totalMinutes - (b3 : Int) ∧
      0 ≤ r.paidMinutes) ∧
    computeManualTotals bad (some et3) (b3 : Int) 0 "nearest" = .error .invalidFormat ∧
    computeManualTotals (some st3) bad (b3 : Int) 0 "nearest" = .error .invalidFormat ∧
    timeToMinutes (some "24:00") = .error .invalidFormat ∧
    timeToMinutes (some "9:00") = .error .invalidFormat ∧
    timeToMinutes (some "12:60") = .error .invalidFormat ∧
    timeToMinutes (some "") = .error .invalidFormat ∧
    timeToMinutes none = .error .invalidFormat := by
  refine ⟨?_, ?_, ?_, ?_, ?_, rfl, rfl, rfl, rfl, rfl⟩
  · have h1z : (hhmmVal et1 : Int) ≤ (hhmmVal st1 : Int) := by exact_mod_cast h1
    simp [computeManualTotals, timeToMinutes, h1s, h1e, h1z]
  · have h2a : ¬ ((hhmmVal et2 : Int) ≤ (hhmmVal st2 : Int)) := by
      simp only [not_le]
      exact_mod_cast h2
    simp [computeManualTotals, timeToMinutes, h2s, h2e, h2a]
    omega
  · have h3a : ¬ ((hhmmVal et3 : Int) ≤ (hhmmVal st3 : Int)) := by
      simp only [not_le]
      exact_mod_cast h3
    have hmb : max 0 ((b3 : ℕ) : Int) = ((b3 : ℕ) : Int) :=
      max_eq_right (Int.natCast_nonneg b3)
    have h3b : ¬ ((hhmmVal et3 : Int) - (hhmmVal st3 : Int) < max 0 (b3 : Int)) := by
      rw [hmb]
      omega
    have hmp : max 0 ((hhmmVal et3 : Int) - (hhmmVal st3 : Int) - (b3 : Int)) =
        (hhmmVal et3 : Int) - (hhmmVal st3 : Int) - (b3 : Int) :=
      max_eq_right (by omega)
    refine ⟨{ totalMinutes := (hhmmVal et3 : Int) - (hhmmVal st3 : Int)
              breakMinutes := max 0 (b3 : Int)
              paidMinutes :=
                max 0 ((hhmmVal et3 : Int) - (hhmmVal st3 : Int) - max 0 (b3 : Int))
              paidMinutesRounded :=
                roundMinutes
                  (max 0 ((hhmmVal et3 : Int) - (hhmmVal st3 : Int) - max 0 (b3 : Int)))
                  0 "nearest" }, ?_, rfl, ?_, ?_⟩
    · simp [computeManualTotals, timeToMinutes, h3s, h3e, h3a, h3b]
      omega
    · simp only [hmb, hmp]
    · exact le_max_left 0 _
  · rcases bad with _ | s
    · simp [computeManualTotals, timeToMinutes]
    · have hb := hbad s rfl
      simp [computeManualTotals, timeToMinutes, hb]
  · rcases bad with _ | s
    · simp [computeManualTotals, timeToMinutes, h3s]
    · have hb := hbad s rfl
      simp [computeManualTotals, timeToMinutes, h3s, hb]

theorem computeManualTotals_spec_witness :
    validHHMM "10:00" = true ∧ validHHMM "09:00" = true ∧
    hhmmVal "09:00" ≤ hhmmVal "10:00" ∧
    validHHMM "10:30" = true ∧ hhmmVal "10:00" < hhmmVal "10:30" ∧
    hhmmVal "10:30" - hhmmVal "10:00" < 61 ∧
    validHHMM "17:00" = true ∧ hhmmVal "09:00" < hhmmVal "17:00" ∧
    30 ≤ hhmmVal "17:00" - hhmmVal "09:00" ∧
    (computeManualTotals (some "10:00") (some "09:00") 0 0 "nearest" = .error .invalidRange ∧
     computeManualTotals (some "10:00") (some "10:30") ((61 : ℕ) : Int) 0 "nearest" =
       .error .invalidBreak ∧
     (∃ r, computeManualTotals (some "09:00") (some "17:00") ((30 : ℕ) : Int) 0 "nearest" =
        .ok r ∧
       r.totalMinutes = (hhmmVal "17:00" : Int) - (hhmmVal "09:00" : Int) ∧
       r.paidMinutes = r.totalMinutes - ((30 : ℕ) : Int) ∧
       0 ≤ r.paidMinutes) ∧
     computeManualTotals none (some "17:00") ((30 : ℕ) : Int) 0 "nearest" =
       .error .invalidFormat ∧
     computeManualTotals (some "09:00") none ((30 : ℕ) : Int) 0 "nearest" =
       .error .invalidFormat ∧
     timeToMinutes (some "24:00") = .error .invalidFormat ∧
     timeToMinutes (some "9:00") = .error .invalidFormat ∧
     timeToMinutes (some "12:60") = .error .invalidFormat ∧
     timeToMinutes (some "") = .error .invalidFormat ∧
     timeToMinutes none = .error .invalidFormat) :=
  ⟨by decide, by decide, by decide, by decide, by decide, by decide, by decide, by decide,
   by decide,
   computeManualTotals_spec "10:00" "09:00" (by decide) (by decide) 0 (by decide)
     "10:00" "10:30" (by decide) (by decide) 61 (by decide) (by decide)
     "09:00" "17:00" (by decide) (by decide) 30 (by decide) (by decide)
     none (fun s h => nomatch h)⟩

/-- C3: `approveTimeEntry` fails `Forbidden` for a non-manager-like actor;
for a manager-like actor and an in-tenant manual entry it fails `Conflict`
whenever the status is not exactly "submitted" (in particular on a draft),
and on a submitted entry it succeeds, setting status "approved" and
stamping approvedBy/approvedAt. -/
theorem approveTimeEntry_spec
    (db0 : List TimeEntry) (businessId : Nat) (actorE actorM : Actor)
    (id0 now0 : Nat)
    (hE : isManagerLike actorE.role = false)
    (hM : isManagerLike actorM.role = true)
    (dbC : List TimeEntry) (idC nowC : Nat) (eC : TimeEntry)
    (hfC : findEntry dbC idC = some eC) (hbC : eC.business = businessId)
    (htC : eC.entryType = "manual") (hsC : eC.status ≠ "submitted")
    (dbS : List TimeEntry) (idS nowS : Nat) (eS : TimeEntry)
    (hfS : findEntry dbS idS = some eS) (hbS : eS.business = businessId)
    (htS : eS.entryType = "manual") (hsS : eS.status = "submitted") :
    approveTimeEntry db0 businessId actorE id0 now0 =
      .error (.forbidden "Only managers/owners can approve time entries") ∧
    approveTimeEntry dbC businessId actorM idC nowC =
      .error (.conflict "Only submitted time entries can be approved") ∧
    (∃ e2 db2, approveTimeEntry dbS businessId actorM idS nowS = .ok (e2, db2) ∧
      e2.status = "approved" ∧ e2.approvedBy = some actorM.id ∧
      e2.approvedAt = some nowS) := by
  refine ⟨?_, ?_, ?_⟩
  · simp [approveTimeEntry, hE]
  · simp [approveTimeEntry, hM, hfC, hbC, htC, hsC]
  · refine ⟨{ eS with
              status := "approved"
              approvedBy := some actorM.id
              approvedAt := some nowS
              updatedBy := actorM.id },
            saveEntry dbS
              { eS with
                status := "approved"
                approvedBy := some actorM.id
                approvedAt := some nowS
                updatedBy := actorM.id }, ?_, rfl, rfl, rfl⟩
    simp [approveTimeEntry, hM, hfS, hbS, htS, hsS]

theorem approveTimeEntry_spec_witness :
    isManagerLike (Actor.mk 2 "employee").role = false ∧
    isManagerLike (Actor.mk 10 "manager").role = true ∧
    findEntry [mkEntry 1 1 2 "draft"] 1 = some (mkEntry 1 1 2 "draft") ∧
    (mkEntry 1 1 2 "draft").business = 1 ∧
    (mkEntry 1 1 2 "draft").entryType = "manual" ∧
    (mkEntry 1 1 2 "draft").status ≠ "submitted" ∧
    findEntry [mkEntry 1 1 2 "submitted"] 1 = some (mkEntry 1 1 2 "submitted") ∧
    (mkEntry 1 1 2 "submitted").business = 1 ∧
    (mkEntry 1 1 2 "submitted").entryType = "manual" ∧
    (mkEntry 1 1 2 "submitted").status = "submitted" ∧
    (approveTimeEntry [] 1 (Actor.mk 2 "employee") 1 5 =
      .error (.forbidden "Only managers/owners can approve time entries") ∧
     approveTimeEntry [mkEntry 1 1 2 "draft"] 1 (Actor.mk 10 "manager") 1 5 =
      .error (.conflict "Only submitted time entries can be approved") ∧
     (∃ e2 db2,
        approveTimeEntry [mkEntry 1 1 2 "submitted"] 1 (Actor.mk 10 "manager") 1 5 =
          .ok (e2, db2) ∧
        e2.status = "approved" ∧ e2.approvedBy = some (Actor.mk 10 "manager").id ∧
        e2.approvedAt = some 5)) :=
  ⟨rfl, rfl, rfl, rfl, rfl, by decide, rfl, rfl, rfl, rfl,
   approveTimeEntry_spec [] 1 (Actor.mk 2 "employee") (Actor.mk 10 "manager") 1 5
     rfl rfl
     [mkEntry 1 1 2 "draft"] 1 5 (mkEntry 1 1 2 "draft") rfl rfl rfl (by decide)
     [mkEntry 1 1 2 "submitted"] 1 5 (mkEntry 1 1 2 "submitted") rfl rfl rfl rfl⟩

/-- C4: `voidTimeEntry` — an employee may void only an entry they own
(else `Forbidden`) and only while its status is draft or rejected (else
`Conflict`); a manager-like actor has no status precondition at all (so an
approved entry is voidable by a manager); on success the status becomes
"void". -/
theorem voidTimeEntry_spec
    (businessId : Nat) (actorE actorM : Actor)
    (hE : isManagerLike actorE.role = false)
    (hM : isManagerLike actorM.role = true)
    (dbN : List TimeEntry) (idN : Nat) (eN : TimeEntry)
    (hfN : findEntry dbN idN = some eN) (hbN : eN.business = businessId)
    (htN : eN.entryType = "manual") (hoN : eN.user ≠ actorE.id)
    (dbX : List TimeEntry) (idX : Nat) (eX : TimeEntry)
    (hfX : findEntry dbX idX = some eX) (hbX : eX.business = businessId)
    (htX : eX.entryType = "manual") (hoX : eX.user = actorE.id)
    (hsX : isEditableStatus eX.status = false)
    (dbY : List TimeEntry) (idY : Nat) (eY : TimeEntry)
    (hfY : findEntry dbY idY = some eY) (hbY : eY.business = businessId)
    (htY : eY.entryType = "manual") (hoY : eY.user = actorE.id)
    (hsY : isEditableStatus eY.status = true)
    (dbZ : List TimeEntry) (idZ : Nat) (eZ : TimeEntry)
    (hfZ : findEntry dbZ idZ = some eZ) (hbZ : eZ.business = businessId)
    (htZ : eZ.entryType = "manual") :
    voidTimeEntry dbN businessId actorE idN =
      .error (.forbidden "Employees can only void their own time entry") ∧
    voidTimeEntry dbX businessId actorE idX =
      .error (.conflict "You can only void draft or rejected entries") ∧
    (∃ e2 db2, voidTimeEntry dbY businessId actorE idY = .ok (e2, db2) ∧
      e2.status = "void") ∧
    (∃ e2 db2, voidTimeEntry dbZ businessId actorM idZ = .ok (e2, db2) ∧
      e2.status = "void") := by
  refine ⟨?_, ?_, ?_, ?_⟩
  · simp [voidTimeEntry, hE, hfN, hbN, htN, hoN]
  · simp [voidTimeEntry, hE, hfX, hbX, htX, hoX, hsX]
  · refine ⟨{ eY with status := "void", updatedBy := actorE.id },
            saveEntry dbY { eY with status := "void", updatedBy := actorE.id }, ?_, rfl⟩
    simp [voidTimeEntry, hE, hfY, hbY, htY, hoY, hsY]
  · refine ⟨{ eZ with status := "void", updatedBy := actorM.id },
            saveEntry dbZ { eZ with status := "void", updatedBy := actorM.id }, ?_, rfl⟩
    simp [voidTimeEntry, hM, hfZ, hbZ, htZ]

theorem voidTimeEntry_spec_witness :
    isManagerLike (Actor.mk 2 "employee").role = false ∧
    isManagerLike (Actor.mk 10 "manager").role = true ∧
    findEntry [mkEntry 1 1 3 "draft"] 1 = some (mkEntry 1 1 3 "draft") ∧
    (mkEntry 1 1 3 "draft").user ≠ (Actor.mk 2 "employee").id ∧
    findEntry [mkEntry 1 1 2 "approved"] 1 = some (mkEntry 1 1 2 "approved") ∧
    (mkEntry 1 1 2 "approved").user = (Actor.mk 2 "employee").id ∧
    isEditableStatus (mkEntry 1 1 2 "approved").status = false ∧
    findEntry [mkEntry 1 1 2 "draft"] 1 = some (mkEntry 1 1 2 "draft") ∧
    isEditableStatus (mkEntry 1 1 2 "draft").status = true ∧
    (voidTimeEntry [mkEntry 1 1 3 "draft"] 1 (Actor.mk 2 "employee") 1 =
      .error (.forbidden "Employees can only void their own time entry") ∧
     voidTimeEntry [mkEntry 1 1 2 "approved"] 1 (Actor.mk 2 "employee") 1 =
      .error (.conflict "You can only void draft or rejected entries") ∧
     (∃ e2 db2, voidTimeEntry [mkEntry 1 1 2 "draft"] 1 (Actor.mk 2 "employee") 1 =
        .ok (e2, db2) ∧ e2.status = "void") ∧
     (∃ e2 db2, voidTimeEntry [mkEntry 1 1 2 "approved"] 1 (Actor.mk 10 "manager") 1 =
        .ok (e2, db2) ∧ e2.status = "void")) :=
  ⟨rfl, rfl, rfl, by decide, rfl, rfl, rfl, rfl, rfl,
   voidTimeEntry_spec 1 (Actor.mk 2 "employee") (Actor.mk 10 "manager") rfl rfl
     [mkEntry 1 1 3 "draft"] 1 (mkEntry 1 1 3 "draft") rfl rfl rfl (by decide)
     [mkEntry 1 1 2 "approved"] 1 (mkEntry 1 1 2 "approved") rfl rfl rfl rfl rfl
     [mkEntry 1 1 2 "draft"] 1 (mkEntry 1 1 2 "draft") rfl rfl rfl rfl rfl
     [mkEntry 1 1 2 "approved"] 1 (mkEntry 1 1 2 "approved") rfl rfl rfl⟩

/-- C6: `cancelShift` is idempotent — for a manager-like actor and an
in-tenant shift, canceling an already-canceled shift returns the very same
record and leaves the database untouched (no field, `updatedBy` included,
changes), while canceling a shift in any other status sets status
"canceled" (and `updatedBy`) and saves it. -/
theorem cancelShift_spec
    (businessId : Nat) (actor : Actor) (hM : isManagerLike actor.role = true)
    (dbA : List Shift) (idA : Nat) (sA : Shift)
    (hfA : findShift dbA idA = some sA) (hbA : sA.business = businessId)
    (hsA : sA.status = "canceled")
    (dbB : List Shift) (idB : Nat) (sB : Shift)
    (hfB : findShift dbB idB = some sB) (hbB : sB.business = businessId)
    (hsB : sB.status ≠ "canceled") :
    cancelShift dbA businessId actor idA = .ok (sA, dbA) ∧
    cancelShift dbB businessId actor idB =
      .ok ({ sB with status := "canceled", updatedBy := actor.id },
           saveShift dbB { sB with status := "canceled", updatedBy := actor.id }) := by
  constructor
  · simp [cancelShift, hM, hfA, hbA, hsA]
  · simp [cancelShift, hM, hfB, hbB, hsB]

theorem cancelShift_spec_witness :
    isManagerLike (Actor.mk 10 "manager").role = true ∧
    findShift [mkShift 1 1 "canceled"] 1 = some (mkShift 1 1 "canceled") ∧
    (mkShift 1 1 "canceled").business = 1 ∧
    (mkShift 1 1 "canceled").status = "canceled" ∧
    findShift [mkShift 2 1 "published"] 2 = some (mkShift 2 1 "published") ∧
    (mkShift 2 1 "published").status ≠ "canceled" ∧
    (cancelShift [mkShift 1 1 "canceled"] 1 (Actor.mk 10 "manager") 1 =
      .ok (mkShift 1 1 "canceled", [mkShift 1 1 "canceled"]) ∧
     cancelShift [mkShift 2 1 "published"] 1 (Actor.mk 10 "manager") 2 =
      .ok ({ mkShift 2 1 "published" with
             status := "canceled"
             updatedBy := (Actor.mk 10 "manager").id },
           saveShift [mkShift 2 1 "published"]
             { mkShift 2 1 "published" with
               status := "canceled"
               updatedBy := (Actor.mk 10 "manager").id })) :=
  ⟨rfl, rfl, rfl, rfl, rfl, by decide,
   cancelShift_spec 1 (Actor.mk 10 "manager") rfl
     [mkShift 1 1 "canceled"] 1 (mkShift 1 1 "canceled") rfl rfl rfl
     [mkShift 2 1 "published"] 2 (mkShift 2 1 "published") rfl rfl (by decide)⟩

/-- C7: every lifecycle operation that loads a record by id — time-entry
update/submit/approve/reject/void/getOne and shift
update/publish/cancel/assign/unassign/get — fails `Forbidden` when the
loaded record's business id differs from the actor's tenant id, whatever
the other arguments; since the error is raised before any save, the
record is left unchanged (errors carry no updated state in this model). -/
theorem crossTenant_forbidden
    (tdb : List TimeEntry) (sdb : List Shift) (businessId rid now : Nat)
    (rounding : Int) (actor : Actor) (e : TimeEntry) (s : Shift)
    (workDate stT etT : Option String) (brk : Option Int)
    (notesT : Option (Option String)) (locT : Option (Option Nat))
    (userS locS : Option (Option Nat)) (startS endS : Option Int)
    (roleS notesS : Option (Option String)) (reason : Option String) (uid : Nat)
    (hrole : isManagerLike actor.role = true)
    (hfe : findEntry tdb rid = some e) (hbe : e.business ≠ businessId)
    (hfs : findShift sdb rid = some s) (hbs : s.business ≠ businessId)
    (hreason : rejectReasonInvalid reason = false) :
    updateManualTimeEntry tdb businessId actor rid workDate stT etT brk notesT locT =
      .error (.forbidden "Cross-tenant access is not allowed") ∧
    submitTimeEntry tdb businessId actor rid now =
      .error (.forbidden "Cross-tenant access is not allowed") ∧
    approveTimeEntry tdb businessId actor rid now =
      .error (.forbidden "Cross-tenant access is not allowed") ∧
    rejectTimeEntry tdb businessId actor rid reason =
      .error (.forbidden "Cross-tenant access is not allowed") ∧
    voidTimeEntry tdb businessId actor rid =
      .error (.forbidden "Cross-tenant access is not allowed") ∧
    getTimeEntry tdb businessId actor rid rounding =
      .error (.forbidden "Cross-tenant access is not allowed") ∧
    updateShift sdb businessId actor rid userS locS startS endS roleS notesS =
      .error (.forbidden "Cross-tenant access is not allowed") ∧
    publishShift sdb businessId actor rid now =
      .error (.forbidden "Cross-tenant access is not allowed") ∧
    cancelShift sdb businessId actor rid =
      .error (.forbidden "Cross-tenant access is not allowed") ∧
    assignShift sdb businessId actor rid (some uid) =
      .error (.forbidden "Cross-tenant access is not allowed") ∧
    unassignShift sdb businessId actor rid =
      .error (.forbidden "Cross-tenant access is not allowed") ∧
    getShift sdb businessId actor rid =
      .error (.forbidden "Cross-tenant access is not allowed") := by
  refine ⟨?_, ?_, ?_, ?_, ?_, ?_, ?_, ?_, ?_, ?_, ?_, ?_⟩
  · simp [updateManualTimeEntry, hfe, hbe]
  · simp [submitTimeEntry, hfe, hbe]
  · simp [approveTimeEntry, hrole, hfe, hbe]
  · simp [rejectTimeEntry, hrole, hreason, hfe, hbe]
  · simp [voidTimeEntry, hfe, hbe]
  · simp [getTimeEntry, hfe, hbe]
  · simp [updateShift, hrole, hfs, hbs]
  · simp [publishShift, hrole, hfs, hbs]
  · simp [cancelShift, hrole, hfs, hbs]
  · simp [assignShift, hrole, hfs, hbs]
  · simp [unassignShift, hrole, hfs, hbs]
  · simp [getShift, hfs, hbs]

theorem crossTenant_forbidden_witness :
    isManagerLike (Actor.mk 10 "manager").role = true ∧
    findEntry [mkEntry 1 2 2 "submitted"] 1 = some (mkEntry 1 2 2 "submitted") ∧
    (mkEntry 1 2 2 "submitted").business ≠ 1 ∧
    findShift [mkShift 1 2 "draft"] 1 = some (mkShift 1 2 "draft") ∧
    (mkShift 1 2 "draft").business ≠ 1 ∧
    rejectReasonInvalid (some "no") = false ∧
    (updateManualTimeEntry [mkEntry 1 2 2 "submitted"] 1 (Actor.mk 10 "manager") 1
        none none none none none none =
      .error (.forbidden "Cross-tenant access is not allowed") ∧
     submitTimeEntry [mkEntry 1 2 2 "submitted"] 1 (Actor.mk 10 "manager") 1 5 =
      .error (.forbidden "Cross-tenant access is not allowed") ∧
     approveTimeEntry [mkEntry 1 2 2 "submitted"] 1 (Actor.mk 10 "manager") 1 5 =
      .error (.forbidden "Cross-tenant access is not allowed") ∧
     rejectTimeEntry [mkEntry 1 2 2 "submitted"] 1 (Actor.mk 10 "manager") 1 (some "no") =
      .error (.forbidden "Cross-tenant access is not allowed") ∧
     voidTimeEntry [mkEntry 1 2 2 "submitted"] 1 (Actor.mk 10 "manager") 1 =
      .error (.forbidden "Cross-tenant access is not allowed") ∧
     getTimeEntry [mkEntry 1 2 2 "submitted"] 1 (Actor.mk 10 "manager") 1 0 =
      .error (.forbidden "Cross-tenant access is not allowed") ∧
     updateShift [mkShift 1 2 "draft"] 1 (Actor.mk 10 "manager") 1
        none none none none none none =
      .error (.forbidden "Cross-tenant access is not allowed") ∧
     publishShift [mkShift 1 2 "draft"] 1 (Actor.mk 10 "manager") 1 5 =
      .error (.forbidden "Cross-tenant access is not allowed") ∧
     cancelShift [mkShift 1 2 "draft"] 1 (Actor.mk 10 "manager") 1 =
      .error (.forbidden "Cross-tenant access is not allowed") ∧
     assignShift [mkShift 1 2 "draft"] 1 (Actor.mk 10 "manager") 1 (some 7) =
      .error (.forbidden "Cross-tenant access is not allowed") ∧
     unassignShift [mkShift 1 2 "draft"] 1 (Actor.mk 10 "manager") 1 =
      .error (.forbidden "Cross-tenant access is not allowed") ∧
     getShift [mkShift 1 2 "draft"] 1 (Actor.mk 10 "manager") 1 =
      .error (.forbidden "Cross-tenant access is not allowed")) :=
  ⟨rfl, rfl, by decide, rfl, by decide, by decide,
   crossTenant_forbidden [mkEntry 1 2 2 "submitted"] [mkShift 1 2 "draft"] 1 1 5 0
     (Actor.mk 10 "manager") (mkEntry 1 2 2 "submitted") (mkShift 1 2 "draft")
     none none none none none none none none none none none none (some "no") 7
     rfl rfl (by decide) rfl (by decide) (by decide)⟩

/-- C9: the four status transitions (`submit`, `approve`, `reject`,
`void`) change only status and audit/workflow fields — whenever they
succeed, the duration-determining fields (workDate, startTime, endTime,
breakMinutes), the owning user and business, and the remaining
non-workflow fields (entryType, notes, location, createdBy) of the loaded
entry are unchanged in the returned record. -/
theorem transitions_preserve_core
    (businessId : Nat) (actor : Actor)
    (dbS : List TimeEntry) (idS nowS : Nat) (eS e1 : TimeEntry) (db1 : List TimeEntry)
    (hfS : findEntry dbS idS = some eS)
    (hS : submitTimeEntry dbS businessId actor idS nowS = .ok (e1, db1))
    (dbA : List TimeEntry) (idA nowA : Nat) (eA e2 : TimeEntry) (db2 : List TimeEntry)
    (hfA : findEntry dbA idA = some eA)
    (hA : approveTimeEntry dbA businessId actor idA nowA = .ok (e2, db2))
    (dbR : List TimeEntry) (idR : Nat) (reason : Option String)
    (eR e3 : TimeEntry) (db3 : List TimeEntry)
    (hfR : findEntry dbR idR = some eR)
    (hR : rejectTimeEntry dbR businessId actor idR reason = .ok (e3, db3))
    (dbV : List TimeEntry) (idV : Nat) (eV e4 : TimeEntry) (db4 : List TimeEntry)
    (hfV : findEntry dbV idV = some eV)
    (hV : voidTimeEntry dbV businessId actor idV = .ok (e4, db4)) :
    sameCore e1 eS ∧ sameCore e2 eA ∧ sameCore e3 eR ∧ sameCore e4 eV := by
  refine ⟨?_, ?_, ?_, ?_⟩
  · clear hA hR hV
    simp only [submitTimeEntry, hfS] at hS
    repeat' split at hS
    all_goals
      first
      | exact Except.noConfusion hS
      | (rw [Except.ok.injEq, Prod.mk.injEq] at hS
         obtain ⟨h1, h2⟩ := hS
         subst h1
         simp [sameCore])
  · clear hS hR hV
    simp only [approveTimeEntry, hfA] at hA
    repeat' split at hA
    all_goals
      first
      | exact Except.noConfusion hA
      | (rw [Except.ok.injEq, Prod.mk.injEq] at hA
         obtain ⟨h1, h2⟩ := hA
         subst h1
         simp [sameCore])
  · clear hS hA hV
    simp only [rejectTimeEntry, hfR] at hR
    repeat' split at hR
    all_goals
      first
      | exact Except.noConfusion hR
      | (rw [Except.ok.injEq, Prod.mk.injEq] at hR
         obtain ⟨h1, h2⟩ := hR
         subst h1
         simp [sameCore])
  · clear hS hA hR
    simp only [voidTimeEntry, hfV] at hV
    repeat' split at hV
    all_goals
      first
      | exact Except.noConfusion hV
      | (rw [Except.ok.injEq, Prod.mk.injEq] at hV
         obtain ⟨h1, h2⟩ := hV
         subst h1
         simp [sameCore])

theorem transitions_preserve_core_witness :
    findEntry [mkEntry 1 1 2 "draft"] 1 = some (mkEntry 1 1 2 "draft") ∧
    submitTimeEntry [mkEntry 1 1 2 "draft"] 1 (Actor.mk 10 "manager") 1 5 =
      .ok ({ mkEntry 1 1 2 "draft" with status := "submitted", submittedAt := some 5, updatedBy := 10 },
           saveEntry [mkEntry 1 1 2 "draft"]
             { mkEntry 1 1 2 "draft" with status := "submitted", submittedAt := some 5, updatedBy := 10 }) ∧
    findEntry [mkEntry 1 1 2 "submitted"] 1 = some (mkEntry 1 1 2 "submitted") ∧
    approveTimeEntry [mkEntry 1 1 2 "submitted"] 1 (Actor.mk 10 "manager") 1 5 =
      .ok ({ mkEntry 1 1 2 "submitted" with status := "approved", approvedBy := some 10, approvedAt := some 5, updatedBy := 10 },
           saveEntry [mkEntry 1 1 2 "submitted"]
             { mkEntry 1 1 2 "submitted" with status := "approved", approvedBy := some 10, approvedAt := some 5, updatedBy := 10 }) ∧
    rejectTimeEntry [mkEntry 1 1 2 "submitted"] 1 (Actor.mk 10 "manager") 1 (some "no") =
      .ok ({ mkEntry 1 1 2 "submitted" with status := "rejected", rejectionReason := some "no", updatedBy := 10 },
           saveEntry [mkEntry 1 1 2 "submitted"]
             { mkEntry 1 1 2 "submitted" with status := "rejected", rejectionReason := some "no", updatedBy := 10 }) ∧
    voidTimeEntry [mkEntry 1 1 2 "submitted"] 1 (Actor.mk 10 "manager") 1 =
      .ok ({ mkEntry 1 1 2 "submitted" with status := "void", updatedBy := 10 },
           saveEntry [mkEntry 1 1 2 "submitted"]
             { mkEntry 1 1 2 "submitted" with status := "void", updatedBy := 10 }) ∧
    (sameCore { mkEntry 1 1 2 "draft" with status := "submitted", submittedAt := some 5, updatedBy := 10 }
       (mkEntry 1 1 2 "draft") ∧
     sameCore { mkEntry 1 1 2 "submitted" with status := "approved", approvedBy := some 10, approvedAt := some 5, updatedBy := 10 }
       (mkEntry 1 1 2 "submitted") ∧
     sameCore { mkEntry 1 1 2 "submitted" with status := "rejected", rejectionReason := some "no", updatedBy := 10 }
       (mkEntry 1 1 2 "submitted") ∧
     sameCore { mkEntry 1 1 2 "submitted" with status := "void", updatedBy := 10 }
       (mkEntry 1 1 2 "submitted")) :=
  ⟨rfl, rfl, rfl, rfl, rfl, rfl,
   transitions_preserve_core 1 (Actor.mk 10 "manager")
     [mkEntry 1 1 2 "draft"] 1 5 (mkEntry 1 1 2 "draft")
     { mkEntry 1 1 2 "draft" with status := "submitted", submittedAt := some 5, updatedBy := 10 }
     (saveEntry [mkEntry 1 1 2 "draft"]
       { mkEntry 1 1 2 "draft" with status := "submitted", submittedAt := some 5, updatedBy := 10 })
     rfl rfl
     [mkEntry 1 1 2 "submitted"] 1 5 (mkEntry 1 1 2 "submitted")
     { mkEntry 1 1 2 "submitted" with status := "approved", approvedBy := some 10, approvedAt := some 5, updatedBy := 10 }
     (saveEntry [mkEntry 1 1 2 "submitted"]
       { mkEntry 1 1 2 "submitted" with status := "approved", approvedBy := some 10, approvedAt := some 5, updatedBy := 10 })
     rfl rfl
     [mkEntry 1 1 2 "submitted"] 1 (some "no") (mkEntry 1 1 2 "submitted")
     { mkEntry 1 1 2 "submitted" with status := "rejected", rejectionReason := some "no", updatedBy := 10 }
     (saveEntry [mkEntry 1 1 2 "submitted"]
       { mkEntry 1 1 2 "submitted" with status := "rejected", rejectionReason := some "no", updatedBy := 10 })
     rfl rfl
     [mkEntry 1 1 2 "submitted"] 1 (mkEntry 1 1 2 "submitted")
     { mkEntry 1 1 2 "submitted" with status := "void", updatedBy := 10 }
     (saveEntry [mkEntry 1 1 2 "submitted"]
       { mkEntry 1 1 2 "submitted" with status := "void", updatedBy := 10 })
     rfl rfl⟩

/-- C10: for a manager-like actor, `bulkApproveTimeEntries` and
`bulkRejectTimeEntries` fail `BadRequest` when `entryIds` is missing / not
an array (`none`) or an empty array — before touching any record (an error
leaves the database unchanged in this model) — and `bulkRejectTimeEntries`
additionally fails `BadRequest` when the trimmed reason is absent or
shorter than 2 characters even for a valid id list. -/
theorem bulk_input_validation
    (db : List TimeEntry) (businessId now : Nat) (actor : Actor)
    (hrole : isManagerLike actor.role = true)
    (entryIdsBad : Option (List Nat))
    (hbad : entryIdsBad = none ∨ entryIdsBad = some [])
    (reasonAny : Option String)
    (goodIds : List Nat) (hgood : goodIds ≠ [])
    (badReason : Option String) (hbr : rejectReasonInvalid badReason = true) :
    bulkApproveTimeEntries db businessId actor entryIdsBad now =
      .error (.badRequest "entryIds must be a non-empty array") ∧
    bulkRejectTimeEntries db businessId actor entryIdsBad reasonAny =
      .error (.badRequest "entryIds must be a non-empty array") ∧
    bulkRejectTimeEntries db businessId actor (some goodIds) badReason =
      .error (.badRequest "Rejection reason is required") := by
  refine ⟨?_, ?_, ?_⟩
  · rcases hbad with h | h <;> subst h <;> simp [bulkApproveTimeEntries, hrole]
  · rcases hbad with h | h <;> subst h <;> simp [bulkRejectTimeEntries, hrole]
  · cases goodIds with
    | nil => exact absurd rfl hgood
    | cons a l => simp [bulkRejectTimeEntries, hrole, hbr]

theorem bulk_input_validation_witness :
    isManagerLike (Actor.mk 10 "manager").role = true ∧
    ((none : Option (List Nat)) = none ∨ (none : Option (List Nat)) = some []) ∧
    ([1] : List Nat) ≠ [] ∧
    rejectReasonInvalid (some "x") = true ∧
    (bulkApproveTimeEntries [mkEntry 1 1 2 "submitted"] 1 (Actor.mk 10 "manager") none 5 =
      .error (.badRequest "entryIds must be a non-empty array") ∧
     bulkRejectTimeEntries [mkEntry 1 1 2 "submitted"] 1 (Actor.mk 10 "manager") none none =
      .error (.badRequest "entryIds must be a non-empty array") ∧
     bulkRejectTimeEntries [mkEntry 1 1 2 "submitted"] 1 (Actor.mk 10 "manager") (some [1])
        (some "x") =
      .error (.badRequest "Rejection reason is required")) :=
  ⟨rfl, Or.inl rfl, by decide, by decide,
   bulk_input_validation [mkEntry 1 1 2 "submitted"] 1 5 (Actor.mk 10 "manager") rfl
     none (Or.inl rfl) none [1] (by decide) (some "x") (by decide)⟩

lemma countP_bulkMatch_le (db : List TimeEntry) (businessId : Nat) (ids : List Nat)
    (hnd : (db.map TimeEntry.id).Nodup) :
    db.countP (fun e => bulkMatch businessId ids e) ≤ ids.length := by
  classical
  rw [List.countP_eq_length_filter]
  set l := (db.filter (fun e => bulkMatch businessId ids e)).map TimeEntry.id with hl
  have hsub : ∀ x ∈ l, x ∈ ids := by
    intro x hx
    rw [hl, List.mem_map] at hx
    obtain ⟨e, he, hex⟩ := hx
    rw [List.mem_filter] at he
    have hb := he.2
    simp only [bulkMatch, Bool.and_eq_true, decide_eq_true_eq] at hb
    rw [← hex]
    exact hb.1.1.1
  have hndl : l.Nodup :=
    List.Nodup.sublist (List.Sublist.map TimeEntry.id (List.filter_sublist db)) hnd
  have h1 : (db.filter (fun e => bulkMatch businessId ids e)).length = l.length := by
    rw [hl, List.length_map]
  rw [h1]
  calc l.length = l.toFinset.card := (List.toFinset_card_of_nodup hndl).symm
    _ ≤ ids.toFinset.card := Finset.card_le_card (fun x hx => by
        rw [List.mem_toFinset]
        exact hsub x (by rwa [List.mem_toFinset] at hx))
    _ ≤ ids.length := ids.toFinset_card_le

/-- C5: for a manager-like actor and a non-empty id list,
`bulkApproveTimeEntries` succeeds, flipping to "approved" (with
approvedBy/approvedAt/updatedBy stamps) exactly the stored entries whose
id is in the list, whose business is the tenant, whose entryType is
"manual" and whose status is "submitted"; every other record is left
unchanged with no per-id error, and the returned counts satisfy
`modified = matched ≤ len(entryIds)` (so `modified ≤ matched ≤ len`). -/
theorem bulkApprove_spec
    (db : List TimeEntry) (businessId now : Nat) (actor : Actor) (ids : List Nat)
    (hrole : isManagerLike actor.role = true) (hne : ids ≠ [])
    (hnd : (db.map TimeEntry.id).Nodup) :
    ∃ r db2, bulkApproveTimeEntries db businessId actor (some ids) now = .ok (r, db2) ∧
      (∀ e ∈ db, (e.id ∈ ids ∧ e.business = businessId ∧ e.entryType = "manual" ∧
          e.status = "submitted") →
        { e with status := "approved", approvedBy := some actor.id,
                 approvedAt := some now, updatedBy := actor.id } ∈ db2) ∧
      (∀ e ∈ db, ¬ (e.id ∈ ids ∧ e.business = businessId ∧ e.entryType = "manual" ∧
          e.status = "submitted") → e ∈ db2) ∧
      r.matched = db.countP (fun e => bulkMatch businessId ids e) ∧
      r.modified = r.matched ∧
      r.modified ≤ r.matched ∧ r.matched ≤ ids.length := by
  have hie : ids.isEmpty = false := by
    cases ids with
    | nil => exact absurd rfl hne
    | cons a l => rfl
  refine ⟨{ matched := db.countP (fun e => bulkMatch businessId ids e)
            modified := db.countP (fun e => bulkMatch businessId ids e)
            updated := (db.map (fun e =>
                if bulkMatch businessId ids e then
                  { e with status := "approved", approvedBy := some actor.id,
                           approvedAt := some now, updatedBy := actor.id }
                else e)).filter
              (fun e => ids.contains e.id && e.business == businessId &&
                e.entryType == "manual") },
          db.map (fun e =>
            if bulkMatch businessId ids e then
              { e with status := "approved", approvedBy := some actor.id,
                       approvedAt := some now, updatedBy := actor.id }
            else e),
          ?_, ?_, ?_, rfl, rfl, le_refl _, countP_bulkMatch_le db businessId ids hnd⟩
  · simp [bulkApproveTimeEntries, hrole, hie]
  · intro e he hp
    have hb : bulkMatch businessId ids e = true := by
      simp only [bulkMatch, Bool.and_eq_true, decide_eq_true_eq, and_assoc]
      exact hp
    exact List.mem_map.mpr ⟨e, he, by simp [hb]⟩
  · intro e he hp
    have hb : bulkMatch businessId ids e = false := by
      rw [Bool.eq_false_iff]
      intro hcon
      apply hp
      simpa only [bulkMatch, Bool.and_eq_true, decide_eq_true_eq, and_assoc] using hcon
    exact List.mem_map.mpr ⟨e, he, by simp [hb]⟩

theorem bulkApprove_spec_witness :
    isManagerLike (Actor.mk 10 "manager").role = true ∧
    ([1, 2] : List Nat) ≠ [] ∧
    (([mkEntry 1 1 2 "submitted", mkEntry 2 1 2 "approved"].map TimeEntry.id).Nodup) ∧
    (∃ r db2,
      bulkApproveTimeEntries [mkEntry 1 1 2 "submitted", mkEntry 2 1 2 "approved"] 1
          (Actor.mk 10 "manager") (some [1, 2]) 5 = .ok (r, db2) ∧
      (∀ e ∈ [mkEntry 1 1 2 "submitted", mkEntry 2 1 2 "approved"],
          (e.id ∈ [1, 2] ∧ e.business = 1 ∧ e.entryType = "manual" ∧
            e.status = "submitted") →
        { e with status := "approved", approvedBy := some (Actor.mk 10 "manager").id,
                 approvedAt := some 5, updatedBy := (Actor.mk 10 "manager").id } ∈ db2) ∧
      (∀ e ∈ [mkEntry 1 1 2 "submitted", mkEntry 2 1 2 "approved"],
          ¬ (e.id ∈ [1, 2] ∧ e.business = 1 ∧ e.entryType = "manual" ∧
            e.status = "submitted") → e ∈ db2) ∧
      r.matched = List.countP (fun e => bulkMatch 1 [1, 2] e)
        [mkEntry 1 1 2 "submitted", mkEntry 2 1 2 "approved"] ∧
      r.modified = r.matched ∧
      r.modified ≤ r.matched ∧ r.matched ≤ ([1, 2] : List Nat).length) :=
  ⟨rfl, by decide, by decide,
   bulkApprove_spec [mkEntry 1 1 2 "submitted", mkEntry 2 1 2 "approved"] 1 5
     (Actor.mk 10 "manager") [1, 2] rfl (by decide) (by decide)⟩

lemma checkOverlapLoop_spec (ns ne : Nat) :
    ∀ l : List TimeEntry,
      (∀ e ∈ l, (present e.startTime && present e.endTime) = true →
        (∃ v, timeToMinutes e.startTime = Except.ok v) ∧
        (∃ w, timeToMinutes e.endTime = Except.ok w)) →
      ((checkOverlapLoop ns ne l =
          .error (.conflict "Time entry overlaps an existing entry on the same date") ↔
        ∃ e ∈ l, entryOverlaps ns ne e) ∧
       (checkOverlapLoop ns ne l =
          .error (.conflict "Time entry overlaps an existing entry on the same date") ∨
        checkOverlapLoop ns ne l = .ok ())) := by
  intro l
  induction l with
  | nil =>
    intro _
    refine ⟨?_, Or.inr rfl⟩
    simp [checkOverlapLoop]
  | cons e rest ih =>
    intro h
    have hrest := ih (fun x hx hpx => h x (List.mem_cons_of_mem _ hx) hpx)
    by_cases hp : (present e.startTime && present e.endTime) = true
    · obtain ⟨⟨v, hv⟩, ⟨w, hw⟩⟩ := h e (List.mem_cons_self _ _) hp
      rw [Bool.and_eq_true] at hp
      by_cases hov : v < ne ∧ w > ns
      · have hconf : checkOverlapLoop ns ne (e :: rest) =
            .error (.conflict "Time entry overlaps an existing entry on the same date") := by
          simp [checkOverlapLoop, hp.1, hp.2, hv, hw, hov]
        refine ⟨⟨fun _ => ⟨e, List.mem_cons_self _ _, hp.1, hp.2, v, w, hv, hw, hov.1, hov.2⟩,
                fun _ => hconf⟩, Or.inl hconf⟩
      · have hred : checkOverlapLoop ns ne (e :: rest) = checkOverlapLoop ns ne rest := by
          simp [checkOverlapLoop, hp.1, hp.2, hv, hw, hov]
        have henot : ¬ entryOverlaps ns ne e := by
          rintro ⟨_, _, s, t, hs, ht, h1, h2⟩
          rw [hv] at hs
          rw [hw] at ht
          have hvs : v = s := by simpa using hs
          have hwt : w = t := by simpa using ht
          subst hvs
          subst hwt
          exact hov ⟨h1, h2⟩
        constructor
        · rw [hred, hrest.1]
          constructor
          · rintro ⟨x, hx, ho⟩
            exact ⟨x, List.mem_cons_of_mem _ hx, ho⟩
          · rintro ⟨x, hx, ho⟩
            rcases List.mem_cons.mp hx with rfl | hx2
            · exact absurd ho henot
            · exact ⟨x, hx2, ho⟩
        · rw [hred]
          exact hrest.2
    · have hred : checkOverlapLoop ns ne (e :: rest) = checkOverlapLoop ns ne rest := by
        simp only [checkOverlapLoop]
        rw [if_neg hp]
      have henot : ¬ entryOverlaps ns ne e := by
        rintro ⟨h1, h2, _⟩
        exact hp (by rw [Bool.and_eq_true]; exact ⟨h1, h2⟩)
      constructor
      · rw [hred, hrest.1]
        constructor
        · rintro ⟨x, hx, ho⟩
          exact ⟨x, List.mem_cons_of_mem _ hx, ho⟩
        · rintro ⟨x, hx, ho⟩
          rcases List.mem_cons.mp hx with rfl | hx2
          · exact absurd ho henot
          · exact ⟨x, hx2, ho⟩
      · rw [hred]
        exact hrest.2

/-- C1: the manual-overlap check signals `Conflict` iff some stored record
with the same business, user and workDate, status ≠ void, id different
from the excluded (self) id, and both times present, satisfies
`existing.start < candidate.end ∧ existing.end > candidate.start` in
minutes-since-midnight — half-open intersection, so touching endpoints do
not conflict, and records missing a time are skipped; otherwise (no such
record) the check returns cleanly.  The database is assumed to hold manual
entries whose present times parse, as the schema/creation path enforces. -/
theorem ensureNoManualOverlap_spec
    (db : List TimeEntry) (businessId userId : Nat) (workDate : String)
    (startTime endTime : Option String) (excludeEntryId : Option Nat) (ns ne : Nat)
    (hman : ∀ e ∈ db, e.entryType = "manual")
    (hwf : ∀ e ∈ db, (present e.startTime && present e.endTime) = true →
      (∃ v, timeToMinutes e.startTime = Except.ok v) ∧
      (∃ w, timeToMinutes e.endTime = Except.ok w))
    (hs : timeToMinutes startTime = .ok ns) (he : timeToMinutes endTime = .ok ne)
    (hlt : ns < ne) :
    (ensureNoManualOverlap db businessId userId workDate startTime endTime excludeEntryId =
        .error (.conflict "Time entry overlaps an existing entry on the same date") ↔
      ∃ e ∈ db, conflictsWith businessId userId workDate excludeEntryId ns ne e) ∧
    ((¬ ∃ e ∈ db, conflictsWith businessId userId workDate excludeEntryId ns ne e) →
      ensureNoManualOverlap db businessId userId workDate startTime endTime excludeEntryId =
        .ok ()) := by
  have hnle : ¬ (ne ≤ ns) := not_le.mpr hlt
  have hloop := checkOverlapLoop_spec ns ne
    (db.filter (manualOverlapQuery businessId userId workDate excludeEntryId))
    (fun e heF hpe => hwf e (List.mem_filter.mp heF).1 hpe)
  have hred : ensureNoManualOverlap db businessId userId workDate startTime endTime
      excludeEntryId =
      checkOverlapLoop ns ne
        (db.filter (manualOverlapQuery businessId userId workDate excludeEntryId)) := by
    simp [ensureNoManualOverlap, hs, he, hnle]
  have hset : (∃ e ∈ db.filter (manualOverlapQuery businessId userId workDate excludeEntryId),
        entryOverlaps ns ne e) ↔
      ∃ e ∈ db, conflictsWith businessId userId workDate excludeEntryId ns ne e := by
    constructor
    · rintro ⟨e, heF, ho⟩
      rw [List.mem_filter] at heF
      obtain ⟨hed, hq⟩ := heF
      simp only [manualOverlapQuery, Bool.and_eq_true, beq_iff_eq, bne_iff_ne] at hq
      obtain ⟨⟨⟨⟨⟨hb, _⟩, hu⟩, hd⟩, hv⟩, hex⟩ := hq
      refine ⟨e, hed, hb, hu, hd, hv, ?_, ho⟩
      intro x hx
      subst hx
      simpa using hex
    · rintro ⟨e, hed, hb, hu, hd, hv, hex, ho⟩
      refine ⟨e, List.mem_filter.mpr ⟨hed, ?_⟩, ho⟩
      simp only [manualOverlapQuery, Bool.and_eq_true, beq_iff_eq, bne_iff_ne]
      refine ⟨⟨⟨⟨⟨hb, hman e hed⟩, hu⟩, hd⟩, hv⟩, ?_⟩
      cases excludeEntryId with
      | none => simp
      | some x => simpa using hex x rfl
  constructor
  · rw [hred, hloop.1]
    exact hset
  · intro hnone
    rw [hred]
    rcases hloop.2 with hc | hok
    · exact absurd (hset.mp (hloop.1.mp hc)) hnone
    · exact hok

theorem ensureNoManualOverlap_spec_witness :
    (∀ e ∈ [mkEntry 1 1 2 "submitted"], e.entryType = "manual") ∧
    (∀ e ∈ [mkEntry 1 1 2 "submitted"],
      (present e.startTime && present e.endTime) = true →
        (∃ v, timeToMinutes e.startTime = Except.ok v) ∧
        (∃ w, timeToMinutes e.endTime = Except.ok w)) ∧
    timeToMinutes (some "11:00") = .ok 660 ∧
    timeToMinutes (some "13:00") = .ok 780 ∧
    660 < 780 ∧
    ensureNoManualOverlap [mkEntry 1 1 2 "submitted"] 1 2 "2024-01-05"
      (some "11:00") (some "13:00") none =
      .error (.conflict "Time entry overlaps an existing entry on the same date") ∧
    ensureNoManualOverlap [mkEntry 1 1 2 "submitted"] 1 2 "2024-01-05"
      (some "17:00") (some "18:00") none = .ok () ∧
    ((ensureNoManualOverlap [mkEntry 1 1 2 "submitted"] 1 2 "2024-01-05"
        (some "11:00") (some "13:00") none =
        .error (.conflict "Time entry overlaps an existing entry on the same date") ↔
      ∃ e ∈ [mkEntry 1 1 2 "submitted"], conflictsWith 1 2 "2024-01-05" none 660 780 e) ∧
     ((¬ ∃ e ∈ [mkEntry 1 1 2 "submitted"], conflictsWith 1 2 "2024-01-05" none 660 780 e) →
      ensureNoManualOverlap [mkEntry 1 1 2 "submitted"] 1 2 "2024-01-05"
        (some "11:00") (some "13:00") none = .ok ())) :=
  ⟨by decide,
   by
     intro e he hp
     rw [List.mem_singleton] at he
     subst he
     exact ⟨⟨540, rfl⟩, ⟨1020, rfl⟩⟩,
   rfl, rfl, by decide, rfl, rfl,
   ensureNoManualOverlap_spec [mkEntry 1 1 2 "submitted"] 1 2 "2024-01-05"
     (some "11:00") (some "13:00") none 660 780 (by decide)
     (by
       intro e he hp
       rw [List.mem_singleton] at he
       subst he
       exact ⟨⟨540, rfl⟩, ⟨1020, rfl⟩⟩)
     rfl rfl (by decide)⟩
